import Mathlib

/-!
Shallow embedding of the secure-session core of the terminal chat
client: `src/client/crypto.py` (`MessageEncryption`, `RSAKeyManager`,
`ClientEncryption`), the typing-indicator handlers of
`src/client/ui.py` (`ChatScreen`), and the connection manager
`ChatConnection`, whose module `client/connection.py` is absent from
the sources and is therefore modelled from the spec and from the
assertions of `src/tests/test_connection.py`.

Cryptographic primitives are modelled symbolically: an authenticated
Fernet token records the key identifier that produced it (standing for
the HMAC tag), the random IV embedded in it, and the plaintext
standing for the AES-CBC body; decryption succeeds exactly when the
supplied key matches the producing key.  Fresh randomness drawn inside
a Python call (`os.urandom` for IVs, the RSA generator) is passed as
an explicit argument, so probabilistic facts such as two IV draws
being distinct become explicit hypotheses.
-/

/-- Python exceptions raised by the embedded code. -/
inductive PyErr where
  | invalidToken
  | valueError
  | fileNotFound
  | runtimeError
deriving DecidableEq, Repr

/-- A Fernet token, symbolically: `iv` is the fresh random IV embedded
in the token, `body` stands for the encrypted plaintext, and `keyId`
stands for the HMAC tag binding the token to the producing key. -/
structure FernetToken where
  iv : Nat
  body : String
  keyId : Nat
deriving DecidableEq, Repr

/-- Data handed to a decrypt call: either a well-formed token or
arbitrary bytes (a tampered or truncated token). -/
inductive Wire where
  | token (t : FernetToken)
  | garbage (s : String)
deriving DecidableEq, Repr

/-- `MessageEncryption` object state: `self.key` together with
`self.cipher = Fernet(self.key)`; the cipher is a function of the key,
so the key alone is the state. -/
structure MessageEncryption where
  key : Nat
deriving DecidableEq, Repr

namespace MessageEncryption

/-- `MessageEncryption.__init__` on the branch where the caller
supplies a key (the branch every claim exercises; with no key the code
generates a fresh one). -/
def init (key : Nat) : MessageEncryption :=
  { key := key }

/-- `MessageEncryption.encrypt`: `self.cipher.encrypt` draws a fresh
random IV from the OS and emits the authenticated token; the IV is the
explicit `iv` argument here. -/
def encrypt (self : MessageEncryption) (iv : Nat) (message : String) : Wire :=
  Wire.token { iv := iv, body := message, keyId := self.key }

/-- `MessageEncryption.decrypt`: `self.cipher.decrypt` verifies the
tag and decodes; it raises `InvalidToken` when the tag does not verify
(a token of a different key) or the data is not a token at all. -/
def decrypt (self : MessageEncryption) (encrypted_message : Wire) : Except PyErr String :=
  match encrypted_message with
  | Wire.token t =>
      if t.keyId = self.key then Except.ok t.body else Except.error PyErr.invalidToken
  | Wire.garbage _ => Except.error PyErr.invalidToken

/-- `MessageEncryption.get_key`. -/
def get_key (self : MessageEncryption) : Nat :=
  self.key

/-- `MessageEncryption.update_key`: assigns `self.key = new_key` and
rebuilds `self.cipher = Fernet(new_key)` on the same object. -/
def update_key (self : MessageEncryption) (new_key : Nat) : MessageEncryption :=
  { self with key := new_key }

end MessageEncryption

/-- An RSA envelope: either a payload OAEP-wrapped for the keypair
with identifier `pub`, or malformed bytes.  In the symbolic model a
public key carries the identifier of the keypair it belongs to. -/
inductive RSAEnvelope where
  | wrapped (pub : Nat) (payload : Nat)
  | malformed
deriving DecidableEq, Repr

/-- Contents of the persisted private-key file: a well-formed PEM
serialization of the keypair with identifier `keyId` and modulus size
`bits`, or corrupt bytes. -/
inductive KeyFile where
  | pem (keyId : Nat) (bits : Nat)
  | corrupt
deriving DecidableEq, Repr

/-- The on-disk key store: the optional private-key file and its
permission mode once one has been set. -/
structure KeyStore where
  file : Option KeyFile
  mode : Option Nat
deriving DecidableEq, Repr

/-- An RSA keypair as returned by `RSAKeyManager`: the private and
public PEM carry the same keypair identifier (the public key is
derived from the private one), plus the modulus size. -/
structure RSAKeyPair where
  private_pem : Nat
  public_pem : Nat
  bits : Nat
deriving DecidableEq, Repr

namespace RSAKeyManager

/-- `RSAKeyManager.generate_key_pair`: generates a fresh RSA keypair
with `key_size=2048`; `seed` stands for the randomness of the
generator. -/
def generate_key_pair (seed : Nat) : RSAKeyPair :=
  { private_pem := seed, public_pem := seed, bits := 2048 }

/-- `RSAKeyManager.decrypt_with_private_key`: OAEP-decrypts the data
with the private key; the library raises `ValueError` when the
envelope is malformed or was wrapped for a different keypair (padding
validation fails). -/
def decrypt_with_private_key (private_key_pem : Nat) (encrypted_data : RSAEnvelope) :
    Except PyErr Nat :=
  match encrypted_data with
  | RSAEnvelope.wrapped pub payload =>
      if pub = private_key_pem then Except.ok payload else Except.error PyErr.valueError
  | RSAEnvelope.malformed => Except.error PyErr.valueError

/-- `RSAKeyManager.save_private_key`: writes the private PEM and sets
the file permissions to `0o600` (read/write for owner only). -/
def save_private_key (kp : RSAKeyPair) : KeyStore :=
  { file := some (KeyFile.pem kp.private_pem kp.bits), mode := some 0o600 }

/-- `RSAKeyManager.load_private_key`: raises `FileNotFoundError` when
the file is absent; otherwise returns the raw bytes, corrupt or not. -/
def load_private_key (store : KeyStore) : Except PyErr KeyFile :=
  match store.file with
  | none => Except.error PyErr.fileNotFound
  | some f => Except.ok f

/-- `serialization.load_pem_private_key`: parses the PEM bytes into a
key; raises `ValueError` on corrupt bytes. -/
def load_pem_private_key (f : KeyFile) : Except PyErr (Nat × Nat) :=
  match f with
  | KeyFile.pem keyId bits => Except.ok (keyId, bits)
  | KeyFile.corrupt => Except.error PyErr.valueError

/-- `RSAKeyManager.get_or_create_key_pair`: tries to load and parse
the persisted key and derive the public key; only `FileNotFoundError`
is caught (a fresh keypair is then generated and saved); any other
error, such as the `ValueError` of a corrupt file, propagates to the
caller. -/
def get_or_create_key_pair (store : KeyStore) (seed : Nat) :
    Except PyErr (RSAKeyPair × KeyStore) :=
  match load_private_key store with
  | Except.ok f =>
      match load_pem_private_key f with
      | Except.ok kb =>
          Except.ok ({ private_pem := kb.1, public_pem := kb.1, bits := kb.2 }, store)
      | Except.error e => Except.error e
  | Except.error e =>
      if e = PyErr.fileNotFound then
        let kp := generate_key_pair seed
        Except.ok (kp, save_private_key kp)
      else Except.error e

end RSAKeyManager

/-- `ClientEncryption` object state: the RSA keypair obtained at
construction plus the optional session key and session cipher set by
the key exchange (both `None` until then). -/
structure ClientEncryption where
  private_key : Nat
  public_key : Nat
  session_key : Option Nat
  encryption : Option MessageEncryption
deriving DecidableEq, Repr

namespace ClientEncryption

/-- `ClientEncryption.set_session_key_encrypted`: decrypts the wrapped
session key with the private key, then assigns `self.session_key` and
rebuilds `self.encryption`.  A raise inside the decryption happens
before either assignment executes, so on error the object is returned
unchanged together with the propagated exception. -/
def set_session_key_encrypted (self : ClientEncryption)
    (encrypted_session_key : RSAEnvelope) : ClientEncryption × Option PyErr :=
  match RSAKeyManager.decrypt_with_private_key self.private_key encrypted_session_key with
  | Except.error e => (self, some e)
  | Except.ok sk =>
      ({ self with session_key := some sk,
                   encryption := some (MessageEncryption.init sk) }, none)

/-- `ClientEncryption.encrypt_message`: raises `RuntimeError` when
`self.encryption is None`; otherwise encrypts with the session cipher
(the fresh IV is the explicit `iv`).  The method body performs no
assignment, so the object is returned as is in both branches. -/
def encrypt_message (self : ClientEncryption) (iv : Nat) (message : String) :
    Except PyErr Wire × ClientEncryption :=
  match self.encryption with
  | none => (Except.error PyErr.runtimeError, self)
  | some enc => (Except.ok (enc.encrypt iv message), self)

/-- `ClientEncryption.decrypt_message`: raises `RuntimeError` when
`self.encryption is None`; otherwise decrypts with the session cipher.
No assignment occurs in the body. -/
def decrypt_message (self : ClientEncryption) (encrypted_message : Wire) :
    Except PyErr String × ClientEncryption :=
  match self.encryption with
  | none => (Except.error PyErr.runtimeError, self)
  | some enc => (enc.decrypt encrypted_message, self)

/-- `ClientEncryption.has_session_key`. -/
def has_session_key (self : ClientEncryption) : Bool :=
  self.encryption.isSome

end ClientEncryption

/-- An outbound chat message payload as queued by the connection
manager. -/
structure OutboundMessage where
  content : String
  room_id : String
deriving DecidableEq, Repr

/-- Modelled from the spec: the module `client/connection.py` (class
`ChatConnection`) is missing from the sources; only
`src/tests/test_connection.py` exercises it.  Fields follow
`test_initialization` and section 3 of the spec (ReconnectBackoff,
OutboundQueue). -/
structure ChatConnection where
  connected : Bool
  running : Bool
  reconnect_delay : Nat
  max_reconnect_delay : Nat
  message_queue : List OutboundMessage
deriving DecidableEq, Repr

namespace ChatConnection

/-- Modelled from the spec: the freshly constructed `ChatConnection`
as asserted by `test_initialization`: not connected, not running,
delay 1, cap 60, empty queue. -/
def init : ChatConnection :=
  { connected := false, running := false, reconnect_delay := 1,
    max_reconnect_delay := 60, message_queue := [] }

/-- Modelled from the spec: `increase_reconnect_delay` applies the
backoff law `delay := min (delay * 2) max_delay`. -/
def increase_reconnect_delay (self : ChatConnection) : ChatConnection :=
  { self with
      reconnect_delay := min (self.reconnect_delay * 2) self.max_reconnect_delay }

/-- Modelled from the spec: `send_message` builds the payload
`{content, room_id}`; while connected it attempts one transport send
(outcome `ok`); while disconnected, or when the send raises, the
payload is appended to the queue instead.  Returns the new state and
the payloads handed to the transport successfully. -/
def send_message (self : ChatConnection) (ok : Bool) (content : String)
    (room_id : String) : ChatConnection × List OutboundMessage :=
  let msg : OutboundMessage := { content := content, room_id := room_id }
  if self.connected && ok then (self, [msg])
  else ({ self with message_queue := self.message_queue ++ [msg] }, [])

/-- Modelled from the spec: the drain loop of `send_queued_messages`.
`outcomes` lists the result of each successive transport send; items
are taken strictly FIFO, one send per item; on the first failure (or
when no further send completes) the loop stops and the unsent items,
the failed one included, stay queued in order.  Returns the payloads
sent and the remaining queue. -/
def drain (queue : List OutboundMessage) (outcomes : List Bool) :
    List OutboundMessage × List OutboundMessage :=
  match queue, outcomes with
  | [], _ => ([], [])
  | m :: rest, [] => ([], m :: rest)
  | m :: rest, ok :: outs =>
      if ok then
        let s := drain rest outs
        (m :: s.1, s.2)
      else ([], m :: rest)

/-- Modelled from the spec: `send_queued_messages` drains the queue,
keeping the not-yet-sent suffix queued for the next attempt. -/
def send_queued_messages (self : ChatConnection) (outcomes : List Bool) :
    ChatConnection × List OutboundMessage :=
  let s := drain self.message_queue outcomes
  ({ self with message_queue := s.2 }, s.1)

/-- Modelled from the spec: a successful `connect` marks the
connection live, resets the backoff delay to the base delay 1, and
invokes `send_queued_messages` to flush the queue. -/
def connect_success (self : ChatConnection) (outcomes : List Bool) :
    ChatConnection × List OutboundMessage :=
  send_queued_messages
    { self with connected := true, running := true, reconnect_delay := 1 } outcomes

/-- A sequence of `send_message` calls made while the transport is
down, each queued without a transport attempt. -/
def send_offline (self : ChatConnection) (contents : List String) : ChatConnection :=
  contents.foldl (fun st c => (send_message st false c "general").1) self

end ChatConnection

/-- Python `str.strip()`: removes leading and trailing whitespace.
Written on the underlying character list so that it evaluates inside
the kernel. -/
def pyStrip (s : String) : String :=
  String.mk (((s.data.dropWhile Char.isWhitespace).reverse.dropWhile
    Char.isWhitespace).reverse)

/-- The typing-indicator state of `ChatScreen` (`src/client/ui.py`):
the local typing flag, whether the single-slot stop-typing debounce
timer is pending, and whether a typing callback has been registered
(`set_typing_indicator_callback`). -/
structure ChatScreen where
  is_currently_typing : Bool
  typing_timer : Bool
  typing_indicator_callback : Bool
deriving DecidableEq, Repr

namespace ChatScreen

/-- `ChatScreen.on_input_changed`: first removes any pending timer;
on a non-empty value it sends `is_typing=true` once when not already
typing (and a callback is set) and (re)schedules the 3-second stop
timer; on an empty value it sends `is_typing=false` when currently
typing.  The returned list holds the `is_typing` values passed to the
callback. -/
def on_input_changed (self : ChatScreen) (value : String) : ChatScreen × List Bool :=
  let st := { self with typing_timer := false }
  if value ≠ "" then
    if ¬st.is_currently_typing ∧ st.typing_indicator_callback then
      ({ st with is_currently_typing := true, typing_timer := true }, [true])
    else
      ({ st with typing_timer := true }, [])
  else
    if st.is_currently_typing ∧ st.typing_indicator_callback then
      ({ st with is_currently_typing := false }, [false])
    else (st, [])

/-- `ChatScreen.stop_typing_indicator`, invoked when the 3-second
one-shot timer fires (a fired timer is no longer pending): sends
`is_typing=false` exactly when currently typing and clears the flag. -/
def stop_typing_indicator (self : ChatScreen) : ChatScreen × List Bool :=
  let st := { self with typing_timer := false }
  if st.is_currently_typing ∧ st.typing_indicator_callback then
    ({ st with is_currently_typing := false }, [false])
  else (st, [])

/-- `ChatScreen.on_input_submitted`: on a non-empty stripped message
it calls the typing callback with `False` unconditionally whenever a
callback is registered; the handler itself neither consults nor clears
`is_currently_typing` and does not cancel the pending timer.  (It then
empties the input box, which reaches `on_input_changed` with an empty
value as a separate event.) -/
def on_input_submitted (self : ChatScreen) (value : String) : ChatScreen × List Bool :=
  let message := pyStrip value
  if message ≠ "" then
    if self.typing_indicator_callback then (self, [false]) else (self, [])
  else (self, [])

end ChatScreen

/-- C1: for every plaintext `p` and every session cipher, decrypting
the token produced by encrypting `p` returns exactly `p`, whatever IV
the encryption drew. -/
theorem c1_encrypt_decrypt_roundtrip (cipher : MessageEncryption) (iv : Nat) (p : String) :
    cipher.decrypt (cipher.encrypt iv p) = Except.ok p := by
  simp [MessageEncryption.decrypt, MessageEncryption.encrypt]

/-- C2: a token produced under one key never decrypts under a cipher
holding a different key: the result is the `InvalidToken` error, the
same single error kind raised for tampered or truncated tokens, and
the only error kind decrypt ever produces. -/
theorem c2_different_keys_cannot_decrypt (a b : MessageEncryption) (iv : Nat) (p : String)
    (hk : a.key ≠ b.key) :
    b.decrypt (a.encrypt iv p) = Except.error PyErr.invalidToken ∧
    (∀ s : String, b.decrypt (Wire.garbage s) = Except.error PyErr.invalidToken) ∧
    (∀ w : Wire, (∃ q, b.decrypt w = Except.ok q) ∨
      b.decrypt w = Except.error PyErr.invalidToken) := by
  refine ⟨?_, ?_, ?_⟩
  · simp [MessageEncryption.decrypt, MessageEncryption.encrypt, hk]
  · intro s; simp [MessageEncryption.decrypt]
  · intro w
    cases w with
    | token t =>
        by_cases h : t.keyId = b.key
        · exact Or.inl ⟨t.body, by simp [MessageEncryption.decrypt, h]⟩
        · exact Or.inr (by simp [MessageEncryption.decrypt, h])
    | garbage s => exact Or.inr (by simp [MessageEncryption.decrypt])

/-- Witness for C2 at concrete keys 1 and 2. -/
theorem c2_witness :
    (MessageEncryption.init 2).decrypt ((MessageEncryption.init 1).encrypt 0 "Secret") =
      Except.error PyErr.invalidToken :=
  (c2_different_keys_cannot_decrypt (MessageEncryption.init 1) (MessageEncryption.init 2)
    0 "Secret" (by decide)).1

/-- C3: two calls of encrypt on the same cipher and plaintext yield
tokens that are not bitwise equal, because each embeds the fresh
random IV it drew; distinctness of the two IV draws is the explicit
hypothesis. -/
theorem c3_encrypt_nondeterministic (cipher : MessageEncryption) (iv1 iv2 : Nat)
    (p : String) (hiv : iv1 ≠ iv2) :
    cipher.encrypt iv1 p ≠ cipher.encrypt iv2 p := by
  intro h
  simp only [MessageEncryption.encrypt, Wire.token.injEq, FernetToken.mk.injEq] at h
  exact hiv h.1

/-- Witness for C3 at a concrete cipher and IV pair. -/
theorem c3_witness :
    (MessageEncryption.init 7).encrypt 0 "Same message" ≠
      (MessageEncryption.init 7).encrypt 1 "Same message" :=
  c3_encrypt_nondeterministic (MessageEncryption.init 7) 0 1 "Same message" (by decide)

/-- C4 counterexample: `update_key` replaces the key of an existing
instance in place, so the key used by decrypt afterwards differs from
the key supplied at construction: the updated cipher rejects a token
of the construction key. -/
theorem c4_counterexample :
    ((MessageEncryption.init 1).update_key 2).key ≠ (MessageEncryption.init 1).key ∧
    ((MessageEncryption.init 1).update_key 2).decrypt
        ((MessageEncryption.init 1).encrypt 0 "hello") =
      Except.error PyErr.invalidToken :=
  ⟨by decide, rfl⟩

/-- C4 amended: the cipher holds the key supplied at construction, and
`get_key`, encrypt and decrypt never change it; `update_key`, however,
replaces the key and the cipher in place with its argument, after
which decrypt accepts exactly the tokens of the new key — tokens of
the construction key are rejected once the keys differ. -/
theorem c4_amended (k new_key iv : Nat) (p : String) (hk : k ≠ new_key) :
    (MessageEncryption.init k).key = k ∧
    (MessageEncryption.init k).get_key = k ∧
    ((MessageEncryption.init k).update_key new_key).key = new_key ∧
    ((MessageEncryption.init k).update_key new_key).decrypt
        ((MessageEncryption.init new_key).encrypt iv p) = Except.ok p ∧
    ((MessageEncryption.init k).update_key new_key).decrypt
        ((MessageEncryption.init k).encrypt iv p) =
      Except.error PyErr.invalidToken := by
  refine ⟨rfl, rfl, rfl, ?_, ?_⟩
  · simp [MessageEncryption.decrypt, MessageEncryption.encrypt,
      MessageEncryption.update_key, MessageEncryption.init]
  · simp [MessageEncryption.decrypt, MessageEncryption.encrypt,
      MessageEncryption.update_key, MessageEncryption.init, hk]

/-- Witness for C4 amended at keys 1 and 2. -/
theorem c4_amended_witness :
    ((MessageEncryption.init 1).update_key 2).key = 2 ∧
    ((MessageEncryption.init 1).update_key 2).decrypt
        ((MessageEncryption.init 2).encrypt 0 "hello") = Except.ok "hello" := by
  have h := c4_amended 1 2 0 "hello" (by decide)
  exact ⟨h.2.2.1, h.2.2.2.1⟩

/-- C5: when unwrapping the session-key envelope fails (malformed, or
wrapped for a different keypair), `set_session_key_encrypted`
propagates the error and the object is unchanged: the stored session
key and cipher are exactly what they were before the call. -/
theorem c5_failed_unwrap_leaves_state (st : ClientEncryption) (env : RSAEnvelope)
    (e : PyErr)
    (h : RSAKeyManager.decrypt_with_private_key st.private_key env = Except.error e) :
    st.set_session_key_encrypted env = (st, some e) := by
  simp [ClientEncryption.set_session_key_encrypted, h]

/-- Witness for C5: a malformed envelope against a concrete client
state with no session key. -/
theorem c5_witness :
    ClientEncryption.set_session_key_encrypted
        { private_key := 1, public_key := 1, session_key := none, encryption := none }
        RSAEnvelope.malformed =
      ({ private_key := 1, public_key := 1, session_key := none, encryption := none },
        some PyErr.valueError) :=
  c5_failed_unwrap_leaves_state
    { private_key := 1, public_key := 1, session_key := none, encryption := none }
    RSAEnvelope.malformed PyErr.valueError rfl

/-- C10: while no session key has been established
(`has_session_key` is false), `encrypt_message` and `decrypt_message`
raise `RuntimeError` on every input and return the object unchanged. -/
theorem c10_no_session_key_raises (st : ClientEncryption) (iv : Nat) (p : String)
    (w : Wire) (h : st.has_session_key = false) :
    st.encrypt_message iv p = (Except.error PyErr.runtimeError, st) ∧
    st.decrypt_message w = (Except.error PyErr.runtimeError, st) := by
  have hnone : st.encryption = none := by
    cases henc : st.encryption with
    | none => rfl
    | some enc => rw [ClientEncryption.has_session_key, henc] at h; simp at h
  constructor
  · simp [ClientEncryption.encrypt_message, hnone]
  · simp [ClientEncryption.decrypt_message, hnone]

/-- Witness for C10 at a concrete sessionless client state. -/
theorem c10_witness :
    ClientEncryption.encrypt_message
        { private_key := 1, public_key := 1, session_key := none, encryption := none }
        0 "hi" =
      (Except.error PyErr.runtimeError,
        { private_key := 1, public_key := 1, session_key := none, encryption := none }) :=
  (c10_no_session_key_raises
    { private_key := 1, public_key := 1, session_key := none, encryption := none }
    0 "hi" (Wire.garbage "x") rfl).1

/-- C6: when the store holds a corrupt file, `get_or_create_key_pair`
fails with the propagated parse error (the `KeyStoreError` of the
spec); when the store is simply absent, it returns a fresh keypair of
modulus size at least 2048 bits, persisted with owner-only permission
mode `0o600`. -/
theorem c6_key_store_get_or_create (store : KeyStore) (seed : Nat) :
    (store.file = some KeyFile.corrupt →
      RSAKeyManager.get_or_create_key_pair store seed = Except.error PyErr.valueError) ∧
    (store.file = none →
      RSAKeyManager.get_or_create_key_pair store seed =
        Except.ok (RSAKeyManager.generate_key_pair seed,
          RSAKeyManager.save_private_key (RSAKeyManager.generate_key_pair seed)) ∧
      2048 ≤ (RSAKeyManager.generate_key_pair seed).bits ∧
      (RSAKeyManager.save_private_key (RSAKeyManager.generate_key_pair seed)).mode =
        some 0o600) := by
  constructor
  · intro h
    simp [RSAKeyManager.get_or_create_key_pair, RSAKeyManager.load_private_key, h,
      RSAKeyManager.load_pem_private_key]
  · intro h
    refine ⟨?_, le_refl _, rfl⟩
    simp [RSAKeyManager.get_or_create_key_pair, RSAKeyManager.load_private_key, h]

/-- Witness for C6: a corrupt store fails, an absent store yields a
fresh 2048-bit keypair stored with mode `0o600`. -/
theorem c6_witness :
    RSAKeyManager.get_or_create_key_pair
        { file := some KeyFile.corrupt, mode := some 0o600 } 5 =
      Except.error PyErr.valueError ∧
    RSAKeyManager.get_or_create_key_pair { file := none, mode := none } 5 =
      Except.ok ({ private_pem := 5, public_pem := 5, bits := 2048 },
        { file := some (KeyFile.pem 5 2048), mode := some 0o600 }) := by
  refine ⟨(c6_key_store_get_or_create
    { file := some KeyFile.corrupt, mode := some 0o600 } 5).1 rfl, ?_⟩
  exact ((c6_key_store_get_or_create { file := none, mode := none } 5).2 rfl).1

/-- The backoff iteration never changes the cap. -/
lemma iterate_increase_max (n : Nat) :
    (ChatConnection.increase_reconnect_delay^[n] ChatConnection.init).max_reconnect_delay
      = 60 := by
  induction n with
  | zero => rfl
  | succ n ih =>
      rw [Function.iterate_succ_apply']
      simp [ChatConnection.increase_reconnect_delay, ih]

/-- The backoff delay stays at or below the cap along the iteration. -/
lemma iterate_increase_delay_le (n : Nat) :
    (ChatConnection.increase_reconnect_delay^[n] ChatConnection.init).reconnect_delay
      ≤ 60 := by
  induction n with
  | zero => simp [ChatConnection.init]
  | succ n ih =>
      rw [Function.iterate_succ_apply']
      simp [ChatConnection.increase_reconnect_delay, iterate_increase_max n]

/-- C7: along any sequence of failed attempts the reconnect delay
starts at the base delay 1, evolves by `min (delay * 2) 60`, is
non-decreasing, never exceeds the cap 60, and any successful connect
resets it to the base delay. -/
theorem c7_reconnect_backoff (n : Nat) (outcomes : List Bool) :
    ChatConnection.init.reconnect_delay = 1 ∧
    (ChatConnection.increase_reconnect_delay^[n] ChatConnection.init).reconnect_delay
      ≤ 60 ∧
    (ChatConnection.increase_reconnect_delay^[n] ChatConnection.init).reconnect_delay ≤
      (ChatConnection.increase_reconnect_delay^[n + 1] ChatConnection.init).reconnect_delay ∧
    (ChatConnection.increase_reconnect_delay^[n + 1] ChatConnection.init).reconnect_delay =
      min ((ChatConnection.increase_reconnect_delay^[n]
        ChatConnection.init).reconnect_delay * 2) 60 ∧
    (ChatConnection.connect_success
      (ChatConnection.increase_reconnect_delay^[n] ChatConnection.init)
      outcomes).1.reconnect_delay = 1 := by
  have hmax := iterate_increase_max n
  have hle := iterate_increase_delay_le n
  refine ⟨rfl, hle, ?_, ?_, ?_⟩
  · rw [Function.iterate_succ_apply']
    simp only [ChatConnection.increase_reconnect_delay, hmax]
    omega
  · rw [Function.iterate_succ_apply']
    simp [ChatConnection.increase_reconnect_delay, hmax]
  · simp [ChatConnection.connect_success, ChatConnection.send_queued_messages]

/-- Draining never loses, duplicates or reorders: the payloads sent
followed by the remaining queue reassemble the original queue. -/
lemma drain_fifo (queue : List OutboundMessage) : ∀ outcomes : List Bool,
    (ChatConnection.drain queue outcomes).1 ++ (ChatConnection.drain queue outcomes).2
      = queue := by
  induction queue with
  | nil => intro outcomes; simp [ChatConnection.drain]
  | cons m rest ih =>
      intro outcomes
      cases outcomes with
      | nil => simp [ChatConnection.drain]
      | cons ok outs =>
          cases ok with
          | true => simp [ChatConnection.drain, ih]
          | false => simp [ChatConnection.drain]

/-- When every transport send succeeds, the drain sends the whole
queue in order and leaves it empty. -/
lemma drain_all_true (queue : List OutboundMessage) :
    ChatConnection.drain queue (List.replicate queue.length true) = (queue, []) := by
  induction queue with
  | nil => rfl
  | cons m rest ih => simp [ChatConnection.drain, List.replicate_succ, ih]

/-- Offline sends append to the queue in call order. -/
lemma send_offline_queue (contents : List String) : ∀ self : ChatConnection,
    (self.send_offline contents).message_queue =
      self.message_queue ++
        contents.map (fun c => { content := c, room_id := "general" }) := by
  induction contents with
  | nil => intro self; simp [ChatConnection.send_offline]
  | cons c cs ih =>
      intro self
      have hstep : self.send_offline (c :: cs) =
          ((self.send_message false c "general").1).send_offline cs := rfl
      rw [hstep, ih]
      simp [ChatConnection.send_message]

/-- C8: sending M messages while disconnected enqueues exactly those
M payloads in call order; any drain sends a prefix and keeps the rest
queued in order with no loss or duplication; a fully successful
reconnect flushes them all, in order, leaving the queue empty. -/
theorem c8_queue_fifo (self : ChatConnection) (contents : List String)
    (outcomes : List Bool) (_hconn : self.connected = false)
    (hq : self.message_queue = []) :
    (self.send_offline contents).message_queue =
      contents.map (fun c => { content := c, room_id := "general" }) ∧
    ((self.send_offline contents).send_queued_messages outcomes).2 ++
      ((self.send_offline contents).send_queued_messages outcomes).1.message_queue =
      contents.map (fun c => { content := c, room_id := "general" }) ∧
    ((self.send_offline contents).connect_success
        (List.replicate contents.length true)).2 =
      contents.map (fun c => { content := c, room_id := "general" }) ∧
    ((self.send_offline contents).connect_success
        (List.replicate contents.length true)).1.message_queue = [] := by
  have hq1 : (self.send_offline contents).message_queue =
      contents.map (fun c => { content := c, room_id := "general" }) := by
    rw [send_offline_queue contents self, hq]
    simp
  have hdrain := drain_all_true (contents.map fun c =>
    ({ content := c, room_id := "general" } : OutboundMessage))
  rw [List.length_map] at hdrain
  refine ⟨hq1, ?_, ?_, ?_⟩
  · simp only [ChatConnection.send_queued_messages, hq1]
    exact drain_fifo _ outcomes
  · simp [ChatConnection.connect_success, ChatConnection.send_queued_messages, hq1,
      hdrain]
  · simp [ChatConnection.connect_success, ChatConnection.send_queued_messages, hq1,
      hdrain]

/-- Witness for C8: two messages queued offline, then flushed by a
successful reconnect. -/
theorem c8_witness :
    (ChatConnection.init.send_offline ["Message 1", "Message 2"]).message_queue =
      [{ content := "Message 1", room_id := "general" },
       { content := "Message 2", room_id := "general" }] ∧
    ((ChatConnection.init.send_offline ["Message 1", "Message 2"]).connect_success
        (List.replicate 2 true)).1.message_queue = [] := by
  have h := c8_queue_fifo ChatConnection.init ["Message 1", "Message 2"]
    [true, false] rfl rfl
  exact ⟨h.1, h.2.2.2⟩

/-- C9 counterexample: submitting a non-empty message while not
marked typing makes the handler send `is_typing=false` anyway (the
claim allows a send only while typing), and the pending debounce
timer is left pending rather than cancelled. -/
theorem c9_counterexample :
    (ChatScreen.on_input_submitted
        { is_currently_typing := false, typing_timer := true,
          typing_indicator_callback := true } "hi").2 ≠ [] ∧
    (ChatScreen.on_input_submitted
        { is_currently_typing := false, typing_timer := true,
          typing_indicator_callback := true } "hi").2 = [false] ∧
    (ChatScreen.on_input_submitted
        { is_currently_typing := false, typing_timer := true,
          typing_indicator_callback := true } "hi").1.typing_timer = true := by
  refine ⟨?_, rfl, rfl⟩
  decide

/-- C9 amended: a keystroke while not marked typing sends exactly one
`is_typing=true` and schedules the stop timer; further keystrokes
while typing send nothing and merely reschedule the timer; the timer
firing after the 3-second quiet period sends exactly one
`is_typing=false` while typing and nothing otherwise; clearing the
input sends exactly one `is_typing=false` when currently typing and
cancels the timer; submitting a non-empty message sends one
`is_typing=false` unconditionally (regardless of the typing state)
and by itself neither clears the typing flag nor cancels the pending
timer. -/
theorem c9_typing_debounce_amended :
    (∀ (st : ChatScreen) (v : String), st.typing_indicator_callback = true →
      st.is_currently_typing = false → v ≠ "" →
      st.on_input_changed v =
        ({ st with is_currently_typing := true, typing_timer := true }, [true])) ∧
    (∀ (st : ChatScreen) (v : String), st.is_currently_typing = true → v ≠ "" →
      st.on_input_changed v = ({ st with typing_timer := true }, [])) ∧
    (∀ st : ChatScreen, st.typing_indicator_callback = true →
      st.is_currently_typing = true →
      st.stop_typing_indicator =
        ({ st with is_currently_typing := false, typing_timer := false }, [false])) ∧
    (∀ st : ChatScreen, st.is_currently_typing = false →
      st.stop_typing_indicator = ({ st with typing_timer := false }, [])) ∧
    (∀ st : ChatScreen, st.typing_indicator_callback = true →
      st.is_currently_typing = true →
      st.on_input_changed "" =
        ({ st with is_currently_typing := false, typing_timer := false }, [false])) ∧
    (∀ (st : ChatScreen) (v : String), st.typing_indicator_callback = true →
      pyStrip v ≠ "" → st.on_input_submitted v = (st, [false])) := by
  refine ⟨?_, ?_, ?_, ?_, ?_, ?_⟩
  · intro st v h1 h2 h3
    simp [ChatScreen.on_input_changed, h1, h2, h3]
  · intro st v h1 h2
    simp [ChatScreen.on_input_changed, h1, h2]
  · intro st h1 h2
    simp [ChatScreen.stop_typing_indicator, h1, h2]
  · intro st h1
    simp [ChatScreen.stop_typing_indicator, h1]
  · intro st h1 h2
    simp [ChatScreen.on_input_changed, h1, h2]
  · intro st v h1 h2
    simp [ChatScreen.on_input_submitted, h1, h2]

/-- Witness for C9 amended: a first keystroke sends `true`; a
submission while typing sends `false` without clearing the flag or
the timer. -/
theorem c9_witness :
    ChatScreen.on_input_changed
        { is_currently_typing := false, typing_timer := false,
          typing_indicator_callback := true } "h" =
      ({ is_currently_typing := true, typing_timer := true,
         typing_indicator_callback := true }, [true]) ∧
    ChatScreen.on_input_submitted
        { is_currently_typing := true, typing_timer := true,
          typing_indicator_callback := true } "hello" =
      ({ is_currently_typing := true, typing_timer := true,
         typing_indicator_callback := true }, [false]) := by
  constructor
  · exact c9_typing_debounce_amended.1 _ "h" rfl rfl (by decide)
  · exact c9_typing_debounce_amended.2.2.2.2.2 _ "hello" rfl (by decide)
